import Mathlib

/-!
Verification of the flow-diagram builder and simulator
(`src/flowApp/src/App.tsx`, `src/flowApp/src/components/FlowSimulation.tsx`).

The file embeds, as executable Lean definitions:
  * the Step/SubStep data model shared by both components;
  * the Flow Graph Store editing operations of `App.tsx` (first variant,
    lines 1-624): `addStep`, `addSubStep`, `updateSubStep`,
    `updateSubStepConfig`, `toggleExpand`, `deleteStep`, `deleteSubStep`,
    `connectSuccessStep`, `connectFailureStep`, `exportConfiguration`,
    `importConfiguration`;
  * both simulation engines of `FlowSimulation.tsx`: `handleChoice`
    (first variant, lines 30-94, state `activeStep` / `activeSubStepIndex` /
    `flowPath` / `isComplete`) and `handleResult` (second variant,
    lines 267-318, state `currentStepId` / `currentSubStepIndex` /
    `simulationHistory`, with no completion flag).

JavaScript specifics carried over faithfully: `if (x)` on an optional
string tests truthiness (undefined and the empty string are falsy);
`JSON.stringify` drops object keys whose value is `undefined`;
`useState(steps[0])` can hold `undefined` when the list is empty, so the
corresponding field is an `Option`.  Fresh identifiers produced by
`generateId()` (Math.random) are passed in as explicit parameters.
-/

namespace FlowApp

/-- The `next | goto` choice of the SubStep action fields. -/
inductive StepAction
  | next
  | goto
deriving DecidableEq, Repr

/-- Step classification `normal | success | failure | decision` (the
`decision` variant appears only in `FlowSimulation.tsx`). -/
inductive StepType
  | normal
  | success
  | failure
  | decision
deriving DecidableEq, Repr

/-- SubStep record of `App.tsx` (first variant) / `FlowSimulation.tsx`.
`successStepId` / `failureStepId` are optional (`string | undefined`). -/
structure SubStep where
  id : String
  content : String
  successAction : StepAction
  failureAction : StepAction
  successStepId : Option String
  failureStepId : Option String
deriving DecidableEq, Repr

/-- Step record: ordered sub-steps plus optional step-level links. -/
structure Step where
  id : String
  title : String
  type : StepType
  subSteps : List SubStep
  expanded : Bool
  successStepId : Option String
  failureStepId : Option String
deriving DecidableEq, Repr

/-- The binary result `success | failure` submitted at each decision point. -/
inductive Outcome
  | success
  | failure
deriving DecidableEq, Repr

/-- JavaScript truthiness of a `string | undefined` value:
`undefined` and `""` are falsy, every other string truthy. -/
def strTruthy : Option String → Bool
  | none => false
  | some s => !s.isEmpty

/-! ## Simulation engine, first variant (`handleChoice`) -/

/-- One entry of `flowPath`: the first variant records the whole Step
object, the sub-step index, and the result. -/
structure PathNode where
  step : Step
  subStepIndex : Nat
  result : Outcome
deriving DecidableEq, Repr

/-- React state of the first `FlowSimulation` variant. `activeStep` is
`useState(steps[0])`, which is `undefined` on an empty list. -/
structure ChoiceState where
  steps : List Step
  activeStep : Option Step
  activeSubStepIndex : Nat
  flowPath : List PathNode
  isComplete : Bool
deriving DecidableEq, Repr

/-- Initial state of the first variant (the `useState` initialisers). -/
def initChoice (steps : List Step) : ChoiceState :=
  { steps := steps
    activeStep := steps.head?
    activeSubStepIndex := 0
    flowPath := []
    isComplete := false }

/-- Tail of `handleChoice` from `if (nextStepId)` down (lines 74-93):
follow `nextStepId` if truthy, completing on a sub-step-less target;
set `isComplete` when there is no (truthy) next id; do nothing when the
id does not resolve to a step. -/
def continueTo (st : ChoiceState) (nextStepId : Option String) : ChoiceState :=
  if strTruthy nextStepId then
    match st.steps.find? (fun s => s.id = nextStepId.getD "") with
    | some nextStep =>
        if nextStep.subSteps.length = 0 then
          { st with isComplete := true
                    flowPath := st.flowPath ++ [⟨nextStep, 0, Outcome.success⟩] }
        else
          { st with activeStep := some nextStep, activeSubStepIndex := 0 }
    | none => st
  else
    { st with isComplete := true }

/-- Handler `handleChoice` (first variant, lines 41-94).  Guards on an unresolved
cursor, appends the current position to `flowPath`, then branches on the
outcome and the action of the sub-step. On success with action `next` and a
remaining sub-step it increments the index and returns early; on failure
with action `next` it goes directly to the step-level `failureStepId`. -/
def handleChoice (st : ChoiceState) (result : Outcome) : ChoiceState :=
  match st.activeStep with
  | none => st
  | some activeStep =>
    match activeStep.subSteps[st.activeSubStepIndex]? with
    | none => st
    | some currentSubStep =>
      let st1 : ChoiceState :=
        { st with flowPath :=
            st.flowPath ++ [⟨activeStep, st.activeSubStepIndex, result⟩] }
      match result with
      | Outcome.success =>
        match currentSubStep.successAction with
        | StepAction.next =>
          if st.activeSubStepIndex < activeStep.subSteps.length - 1 then
            { st1 with activeSubStepIndex := st.activeSubStepIndex + 1 }
          else
            continueTo st1 activeStep.successStepId
        | StepAction.goto => continueTo st1 currentSubStep.successStepId
      | Outcome.failure =>
        match currentSubStep.failureAction with
        | StepAction.next => continueTo st1 activeStep.failureStepId
        | StepAction.goto => continueTo st1 currentSubStep.failureStepId

/-! ## Simulation engine, second variant (`handleResult`) -/

/-- One entry of `simulationHistory` in the second variant:
`{stepId, subStepIndex, result}`. -/
structure HistoryRecord where
  stepId : String
  subStepIndex : Nat
  result : Outcome
deriving DecidableEq, Repr

/-- React state of the second `FlowSimulation` variant.  `currentStepId`
is `useState(steps[0]?.id)`, hence optional; this variant has no
completion flag. -/
structure ResultState where
  steps : List Step
  currentStepId : Option String
  currentSubStepIndex : Nat
  simulationHistory : List HistoryRecord
deriving DecidableEq, Repr

/-- Initial state of the second variant. -/
def initResult (steps : List Step) : ResultState :=
  { steps := steps
    currentStepId := (steps.head?).map Step.id
    currentSubStepIndex := 0
    simulationHistory := [] }

/-- Lookup `steps.find(s => s.id === currentStepId)` of the second variant. -/
def ResultState.currentStep (st : ResultState) : Option Step :=
  match st.currentStepId with
  | none => none
  | some cid => st.steps.find? (fun s => s.id = cid)

/-- Access `currentStep?.subSteps[currentSubStepIndex]`. -/
def ResultState.currentSubStep (st : ResultState) : Option SubStep :=
  match st.currentStep with
  | none => none
  | some s => s.subSteps[st.currentSubStepIndex]?

/-- Handler `handleResult` (second variant, lines 280-318).  Guards on an
unresolved cursor, records the position in history, then branches:
`next` increments the index when one remains (both outcomes) and
otherwise follows the truthy step-level link; `goto` follows the truthy
sub-step-level link; in every other case only history changes. -/
def handleResult (st : ResultState) (result : Outcome) : ResultState :=
  match st.currentStep with
  | none => st
  | some currentStep =>
    match currentStep.subSteps[st.currentSubStepIndex]? with
    | none => st
    | some currentSubStep =>
      let st1 : ResultState :=
        { st with simulationHistory :=
            st.simulationHistory ++
              [⟨currentStep.id, st.currentSubStepIndex, result⟩] }
      match result with
      | Outcome.success =>
        match currentSubStep.successAction with
        | StepAction.next =>
          if st.currentSubStepIndex < currentStep.subSteps.length - 1 then
            { st1 with currentSubStepIndex := st.currentSubStepIndex + 1 }
          else if strTruthy currentStep.successStepId then
            { st1 with currentStepId := currentStep.successStepId
                       currentSubStepIndex := 0 }
          else
            st1
        | StepAction.goto =>
          if strTruthy currentSubStep.successStepId then
            { st1 with currentStepId := currentSubStep.successStepId
                       currentSubStepIndex := 0 }
          else
            st1
      | Outcome.failure =>
        match currentSubStep.failureAction with
        | StepAction.next =>
          if st.currentSubStepIndex < currentStep.subSteps.length - 1 then
            { st1 with currentSubStepIndex := st.currentSubStepIndex + 1 }
          else if strTruthy currentStep.failureStepId then
            { st1 with currentStepId := currentStep.failureStepId
                       currentSubStepIndex := 0 }
          else
            st1
        | StepAction.goto =>
          if strTruthy currentSubStep.failureStepId then
            { st1 with currentStepId := currentSubStep.failureStepId
                       currentSubStepIndex := 0 }
          else
            st1

/-! ## Flow Graph Store editing operations (`App.tsx`, first variant) -/

/-- Operation `addStep` (lines 50-63): a blank (whitespace-only) title is rejected
with a no-op; otherwise a fresh Step with empty sub-step list and
`expanded: true` is appended.  The `generateId()` result is the explicit
`freshId` parameter. -/
def addStep (freshId : String) (newStepTitle : String) (ty : StepType)
    (steps : List Step) : List Step :=
  if (newStepTitle.trim).isEmpty then steps
  else
    steps ++ [{ id := freshId
                title := newStepTitle
                type := ty
                subSteps := []
                expanded := true
                successStepId := none
                failureStepId := none }]

/-- Operation `addSubStep` (lines 65-83): appends an empty SubStep with both
actions `next` to the step with the given id. -/
def addSubStep (freshId : String) (stepId : String)
    (steps : List Step) : List Step :=
  steps.map (fun step =>
    if step.id = stepId then
      { step with subSteps :=
          step.subSteps ++
            [{ id := freshId
               content := ""
               successAction := StepAction.next
               failureAction := StepAction.next
               successStepId := none
               failureStepId := none }] }
    else step)

/-- Operation `updateSubStep` (lines 85-97): replace the content of one sub-step. -/
def updateSubStep (stepId subStepId content : String)
    (steps : List Step) : List Step :=
  steps.map (fun step =>
    if step.id = stepId then
      { step with subSteps := step.subSteps.map (fun subStep =>
          if subStep.id = subStepId then { subStep with content := content }
          else subStep) }
    else step)

/-- The partial `config` object of `updateSubStepConfig`: each field is
present (`some`) or absent (`none`); spreading `{...subStep, ...config}`
overrides exactly the present fields. -/
structure SubStepConfig where
  successAction : Option StepAction := none
  failureAction : Option StepAction := none
  successStepId : Option String := none
  failureStepId : Option String := none
deriving DecidableEq, Repr

/-- Spread merge `{...subStep, ...config}` of `updateSubStepConfig`. -/
def SubStep.merge (subStep : SubStep) (config : SubStepConfig) : SubStep :=
  { subStep with
      successAction := config.successAction.getD subStep.successAction
      failureAction := config.failureAction.getD subStep.failureAction
      successStepId := config.successStepId.elim subStep.successStepId some
      failureStepId := config.failureStepId.elim subStep.failureStepId some }

/-- Operation `updateSubStepConfig` (lines 99-123). -/
def updateSubStepConfig (stepId subStepId : String) (config : SubStepConfig)
    (steps : List Step) : List Step :=
  steps.map (fun step =>
    if step.id = stepId then
      { step with subSteps := step.subSteps.map (fun subStep =>
          if subStep.id = subStepId then subStep.merge config
          else subStep) }
    else step)

/-- Operation `toggleExpand` (lines 125-129). -/
def toggleExpand (stepId : String) (steps : List Step) : List Step :=
  steps.map (fun step =>
    if step.id = stepId then { step with expanded := !step.expanded }
    else step)

/-- Operation `deleteStep` (lines 131-133): keep the steps whose id differs. -/
def deleteStep (stepId : String) (steps : List Step) : List Step :=
  steps.filter (fun step => step.id ≠ stepId)

/-- Operation `deleteSubStep` (lines 135-145). -/
def deleteSubStep (stepId subStepId : String)
    (steps : List Step) : List Step :=
  steps.map (fun step =>
    if step.id = stepId then
      { step with subSteps :=
          step.subSteps.filter (fun subStep => subStep.id ≠ subStepId) }
    else step)

/-- Operation `connectSuccessStep` (lines 147-151): overwrite the step-level
success link of the source step. -/
def connectSuccessStep (sourceId targetId : String)
    (steps : List Step) : List Step :=
  steps.map (fun step =>
    if step.id = sourceId then { step with successStepId := some targetId }
    else step)

/-- Operation `connectFailureStep` (lines 153-157). -/
def connectFailureStep (sourceId targetId : String)
    (steps : List Step) : List Step :=
  steps.map (fun step =>
    if step.id = sourceId then { step with failureStepId := some targetId }
    else step)

/-! ## Import / export (`App.tsx` lines 210-244)

Export serializes the object holding `steps` and a version tag with
`JSON.stringify`; `importConfiguration` runs `JSON.parse` in a
`try/catch` (an alert on failure) and replaces the collection only when
`configuration.steps` is truthy.  We embed JSON values as an inductive
type; the payload handed to import is `Option Json`, `none` standing for
a string `JSON.parse` throws on.  `JSON.stringify` drops keys whose
value is `undefined`, so optional `none` fields are simply absent from
the serialized object. -/

/-- JSON values. -/
inductive Json
  | null
  | bool (b : Bool)
  | num (n : Int)
  | str (s : String)
  | arr (elems : List Json)
  | obj (fields : List (String × Json))

/-- Property access `j.key` on a parsed value: the first field with the
given name, or `undefined` (`none`). -/
def Json.lookup : Json → String → Option Json
  | Json.obj fields, key => fields.lookup key
  | _, _ => none

/-- JavaScript truthiness of a JSON value: `null`, `false`, `0` and `""`
are falsy; arrays and objects are always truthy. -/
def jsTruthy : Json → Bool
  | Json.null => false
  | Json.bool b => b
  | Json.num n => n ≠ 0
  | Json.str s => !s.isEmpty
  | Json.arr _ => true
  | Json.obj _ => true

/-- Serialize a `StepAction`. -/
def encodeAction : StepAction → String
  | StepAction.next => "next"
  | StepAction.goto => "goto"

/-- Serialize a `StepType`. -/
def encodeType : StepType → String
  | StepType.normal => "normal"
  | StepType.success => "success"
  | StepType.failure => "failure"
  | StepType.decision => "decision"

/-- An optional string field: absent when `undefined`
(`JSON.stringify` drops undefined-valued keys). -/
def optField (key : String) : Option String → List (String × Json)
  | none => []
  | some s => [(key, Json.str s)]

/-- Serialization of one SubStep record. -/
def encodeSubStep (ss : SubStep) : Json :=
  Json.obj
    ([("id", Json.str ss.id),
      ("content", Json.str ss.content),
      ("successAction", Json.str (encodeAction ss.successAction)),
      ("failureAction", Json.str (encodeAction ss.failureAction))]
     ++ optField "successStepId" ss.successStepId
     ++ optField "failureStepId" ss.failureStepId)

/-- Serialization of one Step record (including `expanded`). -/
def encodeStep (s : Step) : Json :=
  Json.obj
    ([("id", Json.str s.id),
      ("title", Json.str s.title),
      ("type", Json.str (encodeType s.type)),
      ("subSteps", Json.arr (s.subSteps.map encodeSubStep)),
      ("expanded", Json.bool s.expanded)]
     ++ optField "successStepId" s.successStepId
     ++ optField "failureStepId" s.failureStepId)

/-- Operation `exportConfiguration` (lines 210-226): the serialized
serialized payload with the `steps` array and the version tag. -/
def exportConfiguration (steps : List Step) : Json :=
  Json.obj [("steps", Json.arr (steps.map encodeStep)),
            ("version", Json.str "1.0")]

/-- Read a JSON value back as a `StepAction`. -/
def decodeAction : Json → Option StepAction
  | Json.str "next" => some StepAction.next
  | Json.str "goto" => some StepAction.goto
  | _ => none

/-- Read a JSON value back as a `StepType`. -/
def decodeType : Json → Option StepType
  | Json.str "normal" => some StepType.normal
  | Json.str "success" => some StepType.success
  | Json.str "failure" => some StepType.failure
  | Json.str "decision" => some StepType.decision
  | _ => none

/-- A mandatory string field. -/
def getStr (j : Json) (key : String) : Option String :=
  match j.lookup key with
  | some (Json.str s) => some s
  | _ => none

/-- A mandatory boolean field. -/
def getBool (j : Json) (key : String) : Option Bool :=
  match j.lookup key with
  | some (Json.bool b) => some b
  | _ => none

/-- An optional string field: absent decodes to `none`. -/
def getOptStr (j : Json) (key : String) : Option (Option String) :=
  match j.lookup key with
  | none => some none
  | some (Json.str s) => some (some s)
  | some _ => none

/-- Decode each element of a JSON array, failing if any element fails. -/
def decodeList {α : Type} (dec : Json → Option α) : List Json → Option (List α)
  | [] => some []
  | j :: rest => do
      let x ← dec j
      let xs ← decodeList dec rest
      pure (x :: xs)

/-- Read a serialized SubStep back into the record type.  The source
assigns the raw parsed objects (`setSteps(configuration.steps)`); this
decoder realises that assignment for payloads that are well-typed
SubStep objects, which is the only case the round-trip ranges over. -/
def decodeSubStep (j : Json) : Option SubStep := do
  let id ← getStr j "id"
  let content ← getStr j "content"
  let successAction ← (j.lookup "successAction").bind decodeAction
  let failureAction ← (j.lookup "failureAction").bind decodeAction
  let successStepId ← getOptStr j "successStepId"
  let failureStepId ← getOptStr j "failureStepId"
  pure { id, content, successAction, failureAction,
         successStepId, failureStepId }

/-- Read a serialized Step back into the record type. -/
def decodeStep (j : Json) : Option Step := do
  let id ← getStr j "id"
  let title ← getStr j "title"
  let ty ← (j.lookup "type").bind decodeType
  let subStepsJson ←
    match j.lookup "subSteps" with
    | some (Json.arr elems) => some elems
    | _ => none
  let subSteps ← decodeList decodeSubStep subStepsJson
  let expanded ← getBool j "expanded"
  let successStepId ← getOptStr j "successStepId"
  let failureStepId ← getOptStr j "failureStepId"
  pure { id, title, type := ty, subSteps, expanded,
         successStepId, failureStepId }

/-- Read a serialized Step array. -/
def decodeSteps (j : Json) : Option (List Step) :=
  match j with
  | Json.arr elems => decodeList decodeStep elems
  | _ => none

/-- Result of an import: the Step collection afterwards and whether an
error was reported (the `alert` in the `catch` block). -/
structure ImportResult where
  steps : List Step
  reported : Bool
deriving DecidableEq, Repr

/-- Operation `importConfiguration` (lines 228-244).  A `none` payload: `JSON.parse`
threw, so the `catch` block alerts and the collection is untouched.
Parsed payload: `if (configuration.steps)` — when the `steps` property
is truthy the collection is replaced wholesale by it (here: by its
decoding, with the current collection as the out-of-model fallback for
ill-typed data); otherwise nothing happens and nothing is reported. -/
def importConfiguration (payload : Option Json)
    (current : List Step) : ImportResult :=
  match payload with
  | none => { steps := current, reported := true }
  | some configuration =>
    match configuration.lookup "steps" with
    | some v =>
        if jsTruthy v then
          { steps := (decodeSteps v).getD current, reported := false }
        else
          { steps := current, reported := false }
    | none => { steps := current, reported := false }

/-! ## Spec-phrase projections and example fixtures -/

/-- The action of a SubStep for the submitted outcome:
`successAction` on success, `failureAction` on failure. -/
def SubStep.actionFor (sub : SubStep) : Outcome → StepAction
  | Outcome.success => sub.successAction
  | Outcome.failure => sub.failureAction

/-- The corresponding target step id of a SubStep for an outcome. -/
def SubStep.targetFor (sub : SubStep) : Outcome → Option String
  | Outcome.success => sub.successStepId
  | Outcome.failure => sub.failureStepId

/-- The step-level success/failure link of a Step for an outcome. -/
def Step.linkFor (s : Step) : Outcome → Option String
  | Outcome.success => s.successStepId
  | Outcome.failure => s.failureStepId

/-- Truthiness of a possibly-undefined property value
(`undefined` is falsy). -/
def jsTruthyOpt : Option Json → Bool
  | none => false
  | some v => jsTruthy v

/-- Example sub-step with both actions `next` and no targets. -/
def subNN : SubStep :=
  { id := "X", content := "", successAction := StepAction.next,
    failureAction := StepAction.next, successStepId := none,
    failureStepId := none }

/-- Second example sub-step, also all-`next`. -/
def subY : SubStep := { subNN with id := "Y" }

/-- Example sub-step whose both actions are `goto` with no target set. -/
def subGotoNone : SubStep :=
  { subNN with successAction := StepAction.goto,
               failureAction := StepAction.goto }

/-- Scenario B step: one SubStep `X` with `successAction = next`, no
step-level links. -/
def stepOneSub : Step :=
  { id := "S1", title := "S1", type := StepType.normal,
    subSteps := [subNN], expanded := true,
    successStepId := none, failureStepId := none }

/-- Scenario C-like step: two all-`next` SubSteps `X`, `Y`, no
step-level links. -/
def stepTwoSub : Step := { stepOneSub with subSteps := [subNN, subY] }

/-- Step whose first SubStep is `goto` with no target, second sub-step
remaining. -/
def stepGotoNone : Step := { stepOneSub with subSteps := [subGotoNone, subY] }

/-- Scenario A step: no sub-steps, `successStepId = S2`. -/
def stepNoSub : Step :=
  { stepOneSub with subSteps := [], successStepId := some "S2" }

/-- Scenario A second step. -/
def stepS2 : Step := { stepOneSub with id := "S2", title := "S2" }

/-! ## Helper lemmas -/

/-- Completion is never cleared by `continueTo`. -/
theorem continueTo_complete_true (st : ChoiceState) (nid : Option String)
    (h : st.isComplete = true) : (continueTo st nid).isComplete = true := by
  unfold continueTo
  split
  · split
    · split <;> simp [h]
    · exact h
  · rfl

/-- The flow path never shrinks across `continueTo`. -/
theorem continueTo_flowPath_ge (st : ChoiceState) (nid : Option String) :
    st.flowPath.length ≤ (continueTo st nid).flowPath.length := by
  unfold continueTo
  split
  · split
    · split <;> simp
    · exact le_refl _
  · exact le_refl _

/-- A strict lower bound on the flow path survives `continueTo`. -/
theorem continueTo_flowPath_lt (st : ChoiceState) (nid : Option String) (n : Nat)
    (h : n < st.flowPath.length) : n < (continueTo st nid).flowPath.length :=
  lt_of_lt_of_le h (continueTo_flowPath_ge st nid)

/-- No surviving step carries the deleted id. -/
theorem mem_deleteStep (steps : List Step) (sid : String) (s : Step)
    (h : s ∈ deleteStep sid steps) : s.id ≠ sid := by
  have := List.of_mem_filter h
  simpa using this

/-- Mapping an id-guarded update over a list without the id is the
identity. -/
theorem map_ite_of_no_match (sid : String) (f : Step → Step) (l : List Step)
    (h : ∀ s ∈ l, s.id ≠ sid) :
    l.map (fun s => if s.id = sid then f s else s) = l := by
  conv_rhs => rw [← List.map_id l]
  apply List.map_congr_left
  intro s hs
  simp [h s hs]

/-- An id-guarded, id-preserving map keeps the id sequence and every
non-target element. -/
theorem map_ite_preserves (sid : String) (f : Step → Step)
    (hf : ∀ s, (f s).id = s.id) (l : List Step) :
    (l.map (fun s => if s.id = sid then f s else s)).map Step.id =
      l.map Step.id ∧
    ∀ (i : Nat) (s : Step), l[i]? = some s → s.id ≠ sid →
      (l.map (fun s => if s.id = sid then f s else s))[i]? = some s := by
  constructor
  · rw [List.map_map]
    apply List.map_congr_left
    intro s _
    by_cases h : s.id = sid <;> simp [h, hf]
  · intro i s hget hne
    rw [List.getElem?_map, hget]
    simp [hne]

/-- Decoding inverts encoding on one SubStep. -/
theorem decodeSubStep_encodeSubStep (ss : SubStep) :
    decodeSubStep (encodeSubStep ss) = some ss := by
  obtain ⟨i, c, sa, fa, sss, fss⟩ := ss
  cases sa <;> cases fa <;> cases sss <;> cases fss <;> rfl

/-- Decoding inverts encoding on a SubStep list. -/
theorem decodeList_encode_subSteps (l : List SubStep) :
    decodeList decodeSubStep (l.map encodeSubStep) = some l := by
  induction l with
  | nil => rfl
  | cons hd tl ih => simp [decodeList, decodeSubStep_encodeSubStep, ih]

/-- Decoding inverts encoding on one Step. -/
theorem decodeStep_encodeStep (s : Step) :
    decodeStep (encodeStep s) = some s := by
  obtain ⟨i, t, ty, subs, ex, sss, fss⟩ := s
  cases ty <;> cases sss <;> cases fss <;>
    simp [decodeStep, encodeStep, getStr, getBool, getOptStr, Json.lookup,
          optField, encodeType, decodeType, decodeList_encode_subSteps,
          List.lookup]

/-- Decoding inverts encoding on a Step list. -/
theorem decodeList_encode_steps (l : List Step) :
    decodeList decodeStep (l.map encodeStep) = some l := by
  induction l with
  | nil => rfl
  | cons hd tl ih => simp [decodeList, decodeStep_encodeStep, ih]

/-! ## Claim theorems -/

/-- C1, counterexample: in `handleChoice`, with the cursor on the first of
two sub-steps whose `failureAction` is `next`, submitting failure does
not increment the sub-step index (the claim requires index 1): it leaves
the index at 0 and completes via the absent step-level failure link. -/
theorem C1_counterexample :
    (initChoice [stepTwoSub]).activeStep = some stepTwoSub ∧
    stepTwoSub.subSteps[(initChoice [stepTwoSub]).activeSubStepIndex]? =
      some subNN ∧
    subNN.failureAction = StepAction.next ∧
    (initChoice [stepTwoSub]).activeSubStepIndex <
      stepTwoSub.subSteps.length - 1 ∧
    (handleChoice (initChoice [stepTwoSub]) Outcome.failure).activeSubStepIndex
      = 0 ∧
    (handleChoice (initChoice [stepTwoSub]) Outcome.failure).activeSubStepIndex
      ≠ 1 := by
  decide

/-- C1, amended: in `handleResult` an action `next` with a non-last
sub-step index increments the index by one for both outcomes, recording
the position; in `handleChoice` only the success outcome behaves that
way — failure with `failureAction = next` ignores the remaining
sub-steps and, when the step-level failure link is not set, completes at
the unchanged index. -/
theorem C1_next_increments :
    (∀ (st : ResultState) (o : Outcome) (step : Step) (sub : SubStep),
        st.currentStep = some step →
        step.subSteps[st.currentSubStepIndex]? = some sub →
        sub.actionFor o = StepAction.next →
        st.currentSubStepIndex < step.subSteps.length - 1 →
        handleResult st o =
          { st with currentSubStepIndex := st.currentSubStepIndex + 1
                    simulationHistory := st.simulationHistory ++
                      [⟨step.id, st.currentSubStepIndex, o⟩] }) ∧
    (∀ (st : ChoiceState) (step : Step) (sub : SubStep),
        st.activeStep = some step →
        step.subSteps[st.activeSubStepIndex]? = some sub →
        sub.successAction = StepAction.next →
        st.activeSubStepIndex < step.subSteps.length - 1 →
        handleChoice st Outcome.success =
          { st with activeSubStepIndex := st.activeSubStepIndex + 1
                    flowPath := st.flowPath ++
                      [⟨step, st.activeSubStepIndex, Outcome.success⟩] }) ∧
    (∀ (st : ChoiceState) (step : Step) (sub : SubStep),
        st.activeStep = some step →
        step.subSteps[st.activeSubStepIndex]? = some sub →
        sub.failureAction = StepAction.next →
        strTruthy step.failureStepId = false →
        handleChoice st Outcome.failure =
          { st with isComplete := true
                    flowPath := st.flowPath ++
                      [⟨step, st.activeSubStepIndex, Outcome.failure⟩] }) := by
  refine ⟨fun st o step sub h1 h2 h3 h4 => ?_,
          fun st step sub h1 h2 h3 h4 => ?_,
          fun st step sub h1 h2 h3 h5 => ?_⟩
  · cases o <;>
      simp only [SubStep.actionFor] at h3 <;>
      simp [handleResult, h1, h2, h3, h4]
  · simp [handleChoice, h1, h2, h3, h4]
  · simp [handleChoice, h1, h2, h3, continueTo, h5]

/-- C1, witness: on the two-sub-step example, `handleResult` increments
the index on failure while `handleChoice` completes at index 0. -/
theorem C1_witness :
    subNN.actionFor Outcome.failure = StepAction.next ∧
    (initResult [stepTwoSub]).currentSubStepIndex <
      stepTwoSub.subSteps.length - 1 ∧
    handleResult (initResult [stepTwoSub]) Outcome.failure =
      { initResult [stepTwoSub] with
          currentSubStepIndex := 1
          simulationHistory := [⟨"S1", 0, Outcome.failure⟩] } ∧
    handleChoice (initChoice [stepTwoSub]) Outcome.failure =
      { initChoice [stepTwoSub] with
          isComplete := true
          flowPath := [⟨stepTwoSub, 0, Outcome.failure⟩] } :=
  ⟨by decide, by decide,
   C1_next_increments.1 (initResult [stepTwoSub]) Outcome.failure stepTwoSub
     subNN (by decide) (by decide) (by decide) (by decide),
   C1_next_increments.2.2 (initChoice [stepTwoSub]) stepTwoSub subNN
     (by decide) (by decide) (by decide) (by decide)⟩

/-- C2, counterexample: with the cursor on the first of two sub-steps
whose `successAction` is `goto` with no target set, `handleResult` on
success does not advance to the next sub-step (the claim requires
index 1): the index stays 0 and the cursor stays on the same step. -/
theorem C2_counterexample :
    (initResult [stepGotoNone]).currentStep = some stepGotoNone ∧
    stepGotoNone.subSteps[(initResult [stepGotoNone]).currentSubStepIndex]? =
      some subGotoNone ∧
    subGotoNone.successAction = StepAction.goto ∧
    subGotoNone.successStepId = none ∧
    (initResult [stepGotoNone]).currentSubStepIndex <
      stepGotoNone.subSteps.length - 1 ∧
    (handleResult (initResult [stepGotoNone]) Outcome.success).currentSubStepIndex
      = 0 ∧
    (handleResult (initResult [stepGotoNone]) Outcome.success).currentSubStepIndex
      ≠ 1 := by
  decide

/-- C2, amended: a `goto` action whose target id is unset (or empty) is
not treated as `next`: `handleResult` only records the outcome in
history, leaving the cursor untouched; `handleChoice` records the
outcome, leaves the cursor untouched and sets `isComplete`. -/
theorem C2_goto_unset_behavior :
    (∀ (st : ResultState) (o : Outcome) (step : Step) (sub : SubStep),
        st.currentStep = some step →
        step.subSteps[st.currentSubStepIndex]? = some sub →
        sub.actionFor o = StepAction.goto →
        strTruthy (sub.targetFor o) = false →
        handleResult st o =
          { st with simulationHistory := st.simulationHistory ++
                      [⟨step.id, st.currentSubStepIndex, o⟩] }) ∧
    (∀ (st : ChoiceState) (o : Outcome) (step : Step) (sub : SubStep),
        st.activeStep = some step →
        step.subSteps[st.activeSubStepIndex]? = some sub →
        sub.actionFor o = StepAction.goto →
        strTruthy (sub.targetFor o) = false →
        handleChoice st o =
          { st with isComplete := true
                    flowPath := st.flowPath ++
                      [⟨step, st.activeSubStepIndex, o⟩] }) := by
  refine ⟨fun st o step sub h1 h2 h3 h4 => ?_,
          fun st o step sub h1 h2 h3 h4 => ?_⟩
  · cases o <;>
      simp only [SubStep.actionFor, SubStep.targetFor] at h3 h4 <;>
      simp [handleResult, h1, h2, h3, h4]
  · cases o <;>
      simp only [SubStep.actionFor, SubStep.targetFor] at h3 h4 <;>
      simp [handleChoice, h1, h2, h3, continueTo, h4]

/-- C2, witness: on the goto-without-target example both engines leave
the cursor in place on success. -/
theorem C2_witness :
    subGotoNone.actionFor Outcome.success = StepAction.goto ∧
    strTruthy (subGotoNone.targetFor Outcome.success) = false ∧
    handleResult (initResult [stepGotoNone]) Outcome.success =
      { initResult [stepGotoNone] with
          simulationHistory := [⟨"S1", 0, Outcome.success⟩] } ∧
    handleChoice (initChoice [stepGotoNone]) Outcome.success =
      { initChoice [stepGotoNone] with
          isComplete := true
          flowPath := [⟨stepGotoNone, 0, Outcome.success⟩] } :=
  ⟨by decide, by decide,
   C2_goto_unset_behavior.1 (initResult [stepGotoNone]) Outcome.success
     stepGotoNone subGotoNone (by decide) (by decide) (by decide) (by decide),
   C2_goto_unset_behavior.2 (initChoice [stepGotoNone]) Outcome.success
     stepGotoNone subGotoNone (by decide) (by decide) (by decide) (by decide)⟩

/-- C3: when the action of the current sub-step for the submitted outcome
is `goto` with its target unset, both engines leave the cursor — the
(step, sub-step index) position — exactly where it was. -/
theorem C3_goto_unset_halts :
    (∀ (st : ChoiceState) (o : Outcome) (step : Step) (sub : SubStep),
        st.activeStep = some step →
        step.subSteps[st.activeSubStepIndex]? = some sub →
        sub.actionFor o = StepAction.goto →
        strTruthy (sub.targetFor o) = false →
        (handleChoice st o).activeStep = st.activeStep ∧
        (handleChoice st o).activeSubStepIndex = st.activeSubStepIndex) ∧
    (∀ (st : ResultState) (o : Outcome) (step : Step) (sub : SubStep),
        st.currentStep = some step →
        step.subSteps[st.currentSubStepIndex]? = some sub →
        sub.actionFor o = StepAction.goto →
        strTruthy (sub.targetFor o) = false →
        (handleResult st o).currentStepId = st.currentStepId ∧
        (handleResult st o).currentSubStepIndex = st.currentSubStepIndex) := by
  refine ⟨fun st o step sub h1 h2 h3 h4 => ?_,
          fun st o step sub h1 h2 h3 h4 => ?_⟩
  · cases o <;>
      simp only [SubStep.actionFor, SubStep.targetFor] at h3 h4 <;>
      simp [handleChoice, h1, h2, h3, continueTo, h4]
  · cases o <;>
      simp only [SubStep.actionFor, SubStep.targetFor] at h3 h4 <;>
      simp [handleResult, h1, h2, h3, h4]

/-- C3, witness: on the goto-without-target example, on failure, the
cursor of each engine is unchanged. -/
theorem C3_witness :
    subGotoNone.actionFor Outcome.failure = StepAction.goto ∧
    strTruthy (subGotoNone.targetFor Outcome.failure) = false ∧
    ((handleChoice (initChoice [stepGotoNone]) Outcome.failure).activeStep =
        (initChoice [stepGotoNone]).activeStep ∧
      (handleChoice (initChoice [stepGotoNone]) Outcome.failure).activeSubStepIndex =
        (initChoice [stepGotoNone]).activeSubStepIndex) ∧
    ((handleResult (initResult [stepGotoNone]) Outcome.failure).currentStepId =
        (initResult [stepGotoNone]).currentStepId ∧
      (handleResult (initResult [stepGotoNone]) Outcome.failure).currentSubStepIndex =
        (initResult [stepGotoNone]).currentSubStepIndex) :=
  ⟨by decide, by decide,
   C3_goto_unset_halts.1 (initChoice [stepGotoNone]) Outcome.failure
     stepGotoNone subGotoNone (by decide) (by decide) (by decide) (by decide),
   C3_goto_unset_halts.2 (initResult [stepGotoNone]) Outcome.failure
     stepGotoNone subGotoNone (by decide) (by decide) (by decide) (by decide)⟩

/-- C4: at the last sub-step with action `next` for the submitted outcome
and the step-level link for that outcome absent, `handleChoice` appends
the record and sets `isComplete`; `handleResult` (which has no
completion flag) appends the same record and leaves the cursor. -/
theorem C4_last_next_no_link_completes :
    (∀ (st : ChoiceState) (o : Outcome) (step : Step) (sub : SubStep),
        st.activeStep = some step →
        step.subSteps[st.activeSubStepIndex]? = some sub →
        sub.actionFor o = StepAction.next →
        st.activeSubStepIndex = step.subSteps.length - 1 →
        strTruthy (step.linkFor o) = false →
        handleChoice st o =
          { st with isComplete := true
                    flowPath := st.flowPath ++
                      [⟨step, st.activeSubStepIndex, o⟩] }) ∧
    (∀ (st : ResultState) (o : Outcome) (step : Step) (sub : SubStep),
        st.currentStep = some step →
        step.subSteps[st.currentSubStepIndex]? = some sub →
        sub.actionFor o = StepAction.next →
        st.currentSubStepIndex = step.subSteps.length - 1 →
        strTruthy (step.linkFor o) = false →
        handleResult st o =
          { st with simulationHistory := st.simulationHistory ++
                      [⟨step.id, st.currentSubStepIndex, o⟩] }) := by
  refine ⟨fun st o step sub h1 h2 h3 h4 h5 => ?_,
          fun st o step sub h1 h2 h3 h4 h5 => ?_⟩
  · rw [h4] at h2
    cases o <;>
      simp only [SubStep.actionFor, Step.linkFor] at h3 h5 <;>
      simp [handleChoice, h1, h2, h3, continueTo, h5, h4, lt_irrefl]
  · rw [h4] at h2
    cases o <;>
      simp only [SubStep.actionFor, Step.linkFor] at h3 h5 <;>
      simp [handleResult, h1, h2, h3, h5, h4, lt_irrefl]

/-- C4, witness (Scenario B): one step with a single all-`next` sub-step
and no step-level links; submitting success yields history
`[(S1, 0, success)]` and `isComplete = true`. -/
theorem C4_witness :
    subNN.actionFor Outcome.success = StepAction.next ∧
    (initChoice [stepOneSub]).activeSubStepIndex =
      stepOneSub.subSteps.length - 1 ∧
    strTruthy (stepOneSub.linkFor Outcome.success) = false ∧
    handleChoice (initChoice [stepOneSub]) Outcome.success =
      { initChoice [stepOneSub] with
          isComplete := true
          flowPath := [⟨stepOneSub, 0, Outcome.success⟩] } :=
  ⟨by decide, by decide, by decide,
   C4_last_next_no_link_completes.1 (initChoice [stepOneSub]) Outcome.success
     stepOneSub subNN (by decide) (by decide) (by decide) (by decide)
     (by decide)⟩

/-- C5, counterexample: after a first success completes the Scenario-B
simulation, a second call to `handleChoice` is not a no-op — the history
grows from one record to two. -/
theorem C5_counterexample :
    (handleChoice (initChoice [stepOneSub]) Outcome.success).isComplete =
      true ∧
    (handleChoice (initChoice [stepOneSub]) Outcome.success).flowPath.length =
      1 ∧
    (handleChoice (handleChoice (initChoice [stepOneSub]) Outcome.success)
        Outcome.success).flowPath.length = 2 := by
  decide

/-- C5, amended: `handleChoice` performs no completeness check; once
`isComplete` is true, a further call whose cursor still resolves appends
at least one more record to the history (and `isComplete` stays true). -/
theorem C5_second_call_appends :
    ∀ (st : ChoiceState) (o : Outcome) (step : Step) (sub : SubStep),
      st.isComplete = true →
      st.activeStep = some step →
      step.subSteps[st.activeSubStepIndex]? = some sub →
      (handleChoice st o).isComplete = true ∧
      st.flowPath.length < (handleChoice st o).flowPath.length := by
  intro st o step sub h0 h1 h2
  have hlen : st.flowPath.length <
      (st.flowPath ++ [(⟨step, st.activeSubStepIndex, o⟩ : PathNode)]).length := by
    simp
  cases o <;> simp only [handleChoice, h1, h2]
  · cases h3 : sub.successAction
    · by_cases h4 : st.activeSubStepIndex < step.subSteps.length - 1
      · simp [h3, h4, h0]
      · simp only [h3, h4, if_false]
        exact ⟨continueTo_complete_true _ _ h0,
               continueTo_flowPath_lt _ _ _ hlen⟩
    · simp only [h3]
      exact ⟨continueTo_complete_true _ _ h0,
             continueTo_flowPath_lt _ _ _ hlen⟩
  · cases h3 : sub.failureAction <;> simp only [h3] <;>
      exact ⟨continueTo_complete_true _ _ h0,
             continueTo_flowPath_lt _ _ _ hlen⟩

/-- C5, witness: the completed Scenario-B state accepts a second success
call whose history is strictly longer. -/
theorem C5_witness :
    (handleChoice (initChoice [stepOneSub]) Outcome.success).isComplete =
      true ∧
    (handleChoice (handleChoice (initChoice [stepOneSub]) Outcome.success)
        Outcome.success).isComplete = true ∧
    (handleChoice (initChoice [stepOneSub]) Outcome.success).flowPath.length <
      (handleChoice (handleChoice (initChoice [stepOneSub]) Outcome.success)
        Outcome.success).flowPath.length :=
  ⟨by decide,
   C5_second_call_appends
     (handleChoice (initChoice [stepOneSub]) Outcome.success) Outcome.success
     stepOneSub subNN (by decide) (by decide) (by decide)⟩

/-- C6, counterexample: a payload that parses but has no `steps` field
leaves the collection unchanged but is NOT reported to the caller
(`reported = false`), contradicting the claim that such errors are
reported. -/
theorem C6_counterexample :
    (Json.obj []).lookup "steps" = none ∧
    (importConfiguration (some (Json.obj [])) [stepOneSub]).steps =
      [stepOneSub] ∧
    (importConfiguration (some (Json.obj [])) [stepOneSub]).reported =
      false ∧
    ¬ (importConfiguration (some (Json.obj [])) [stepOneSub]).reported =
      true := by
  refine ⟨rfl, rfl, rfl, ?_⟩
  simp [importConfiguration, Json.lookup]

/-- C6, amended: a payload that fails to parse is reported and leaves the
collection unchanged; a parsed payload whose `steps` property is not
truthy (absent, or falsy) leaves the collection unchanged but is
silently ignored, not reported; only a truthy `steps` property replaces
the collection. -/
theorem C6_import_error_paths :
    (∀ current : List Step,
        importConfiguration none current =
          { steps := current, reported := true }) ∧
    (∀ (current : List Step) (j : Json),
        jsTruthyOpt (j.lookup "steps") = false →
        importConfiguration (some j) current =
          { steps := current, reported := false }) := by
  refine ⟨fun current => rfl, fun current j h => ?_⟩
  simp only [importConfiguration]
  cases hj : j.lookup "steps" with
  | none => rfl
  | some v =>
      rw [hj] at h
      simp only [jsTruthyOpt] at h
      simp [h]

/-- C6, witness: an unparseable payload is reported with the collection
untouched; a parsed payload without `steps` is silently ignored. -/
theorem C6_witness :
    jsTruthyOpt ((Json.obj [("version", Json.str "1.0")]).lookup "steps") =
      false ∧
    importConfiguration none [stepOneSub] =
      { steps := [stepOneSub], reported := true } ∧
    importConfiguration (some (Json.obj [("version", Json.str "1.0")]))
        [stepOneSub] =
      { steps := [stepOneSub], reported := false } :=
  ⟨by decide,
   C6_import_error_paths.1 [stepOneSub],
   C6_import_error_paths.2 [stepOneSub]
     (Json.obj [("version", Json.str "1.0")]) (by decide)⟩

/-- C7, counterexample (Scenario A): with a first step that has no
sub-steps and a success link to S2, initialization does NOT set the
completion flag — `isComplete` starts false, contradicting the claim
that the engine treats the step as immediately terminal at
initialization. -/
theorem C7_counterexample :
    stepNoSub.subSteps = [] ∧
    stepNoSub.successStepId = some "S2" ∧
    (initChoice [stepNoSub, stepS2]).activeStep = some stepNoSub ∧
    (initChoice [stepNoSub, stepS2]).isComplete = false := by
  decide

/-- C7, amended: initialization always starts with `isComplete = false`,
even when the first step has no sub-steps; submitting an outcome while
the cursor is at a zero-sub-step step is a guarded no-op in both
engines (no state change at all), so such a step is stuck rather than
immediately terminal. -/
theorem C7_empty_substeps_noop :
    (∀ steps : List Step, (initChoice steps).isComplete = false) ∧
    (∀ (st : ChoiceState) (o : Outcome) (step : Step),
        st.activeStep = some step → step.subSteps = [] →
        handleChoice st o = st) ∧
    (∀ (st : ResultState) (o : Outcome) (step : Step),
        st.currentStep = some step → step.subSteps = [] →
        handleResult st o = st) := by
  refine ⟨fun steps => rfl,
          fun st o step h1 h2 => ?_,
          fun st o step h1 h2 => ?_⟩
  · simp [handleChoice, h1, h2]
  · simp [handleResult, h1, h2]

/-- C7, witness: on the Scenario-A snapshot, submitting success changes
nothing in either engine and initialization is not complete. -/
theorem C7_witness :
    (initChoice [stepNoSub, stepS2]).isComplete = false ∧
    stepNoSub.subSteps = [] ∧
    handleChoice (initChoice [stepNoSub, stepS2]) Outcome.success =
      initChoice [stepNoSub, stepS2] ∧
    handleResult (initResult [stepNoSub, stepS2]) Outcome.success =
      initResult [stepNoSub, stepS2] :=
  ⟨C7_empty_substeps_noop.1 [stepNoSub, stepS2],
   by decide,
   C7_empty_substeps_noop.2.1 (initChoice [stepNoSub, stepS2])
     Outcome.success stepNoSub (by decide) (by decide),
   C7_empty_substeps_noop.2.2 (initResult [stepNoSub, stepS2])
     Outcome.success stepNoSub (by decide) (by decide)⟩

/-- C8: importing the exported payload of any Step collection `G`
replaces the current collection by exactly `G` (same ids, order and
fields, `expanded` included) without reporting an error. -/
theorem C8_export_import_roundtrip (G current : List Step) :
    importConfiguration (some (exportConfiguration G)) current =
      { steps := G, reported := false } := by
  simp [importConfiguration, exportConfiguration, Json.lookup, jsTruthy,
        decodeSteps, decodeList_encode_steps, List.lookup]

/-- C9: after `deleteStep sid`, every store operation referencing `sid`
(`addSubStep`, `updateSubStep`, `updateSubStepConfig`, `deleteSubStep`,
`connectSuccessStep`, `connectFailureStep`, and `deleteStep` again)
leaves the collection unchanged; all operations are total, so none can
throw. -/
theorem C9_deleted_id_noop (steps : List Step)
    (sid fid content ssid tgt : String) (cfg : SubStepConfig) :
    addSubStep fid sid (deleteStep sid steps) = deleteStep sid steps ∧
    updateSubStep sid ssid content (deleteStep sid steps) =
      deleteStep sid steps ∧
    updateSubStepConfig sid ssid cfg (deleteStep sid steps) =
      deleteStep sid steps ∧
    deleteSubStep sid ssid (deleteStep sid steps) = deleteStep sid steps ∧
    connectSuccessStep sid tgt (deleteStep sid steps) = deleteStep sid steps ∧
    connectFailureStep sid tgt (deleteStep sid steps) = deleteStep sid steps ∧
    deleteStep sid (deleteStep sid steps) = deleteStep sid steps := by
  refine ⟨?_, ?_, ?_, ?_, ?_, ?_, ?_⟩
  · exact map_ite_of_no_match sid _ _ (mem_deleteStep steps sid)
  · exact map_ite_of_no_match sid _ _ (mem_deleteStep steps sid)
  · exact map_ite_of_no_match sid _ _ (mem_deleteStep steps sid)
  · exact map_ite_of_no_match sid _ _ (mem_deleteStep steps sid)
  · exact map_ite_of_no_match sid _ _ (mem_deleteStep steps sid)
  · exact map_ite_of_no_match sid _ _ (mem_deleteStep steps sid)
  · apply List.filter_eq_self.mpr
    intro s hs
    simpa using mem_deleteStep steps sid s hs

/-- C10: every editing operation other than `addStep` and `deleteStep`
keeps the sequence of step ids unchanged and leaves every step other
than the targeted one untouched; `addStep` either rejects (blank title)
or appends the fresh step at the end; `deleteStep` yields a sublist,
preserving the relative order of the remaining steps. -/
theorem C10_edits_preserve_ids_order :
    (∀ (fid sid : String) (steps : List Step),
        (addSubStep fid sid steps).map Step.id = steps.map Step.id ∧
        ∀ (i : Nat) (s : Step), steps[i]? = some s → s.id ≠ sid →
          (addSubStep fid sid steps)[i]? = some s) ∧
    (∀ (sid ssid content : String) (steps : List Step),
        (updateSubStep sid ssid content steps).map Step.id =
          steps.map Step.id ∧
        ∀ (i : Nat) (s : Step), steps[i]? = some s → s.id ≠ sid →
          (updateSubStep sid ssid content steps)[i]? = some s) ∧
    (∀ (sid ssid : String) (cfg : SubStepConfig) (steps : List Step),
        (updateSubStepConfig sid ssid cfg steps).map Step.id =
          steps.map Step.id ∧
        ∀ (i : Nat) (s : Step), steps[i]? = some s → s.id ≠ sid →
          (updateSubStepConfig sid ssid cfg steps)[i]? = some s) ∧
    (∀ (sid : String) (steps : List Step),
        (toggleExpand sid steps).map Step.id = steps.map Step.id ∧
        ∀ (i : Nat) (s : Step), steps[i]? = some s → s.id ≠ sid →
          (toggleExpand sid steps)[i]? = some s) ∧
    (∀ (sid ssid : String) (steps : List Step),
        (deleteSubStep sid ssid steps).map Step.id = steps.map Step.id ∧
        ∀ (i : Nat) (s : Step), steps[i]? = some s → s.id ≠ sid →
          (deleteSubStep sid ssid steps)[i]? = some s) ∧
    (∀ (sid tgt : String) (steps : List Step),
        (connectSuccessStep sid tgt steps).map Step.id = steps.map Step.id ∧
        ∀ (i : Nat) (s : Step), steps[i]? = some s → s.id ≠ sid →
          (connectSuccessStep sid tgt steps)[i]? = some s) ∧
    (∀ (sid tgt : String) (steps : List Step),
        (connectFailureStep sid tgt steps).map Step.id = steps.map Step.id ∧
        ∀ (i : Nat) (s : Step), steps[i]? = some s → s.id ≠ sid →
          (connectFailureStep sid tgt steps)[i]? = some s) ∧
    (∀ (fid title : String) (ty : StepType) (steps : List Step),
        addStep fid title ty steps = steps ∨
        addStep fid title ty steps =
          steps ++ [⟨fid, title, ty, [], true, none, none⟩]) ∧
    (∀ (sid : String) (steps : List Step),
        List.Sublist (deleteStep sid steps) steps) := by
  refine ⟨?_, ?_, ?_, ?_, ?_, ?_, ?_, ?_, ?_⟩
  · intro fid sid steps
    unfold addSubStep
    apply map_ite_preserves
    intro s
    rfl
  · intro sid ssid content steps
    unfold updateSubStep
    apply map_ite_preserves
    intro s
    rfl
  · intro sid ssid cfg steps
    unfold updateSubStepConfig
    apply map_ite_preserves
    intro s
    rfl
  · intro sid steps
    unfold toggleExpand
    apply map_ite_preserves
    intro s
    rfl
  · intro sid ssid steps
    unfold deleteSubStep
    apply map_ite_preserves
    intro s
    rfl
  · intro sid tgt steps
    unfold connectSuccessStep
    apply map_ite_preserves
    intro s
    rfl
  · intro sid tgt steps
    unfold connectFailureStep
    apply map_ite_preserves
    intro s
    rfl
  · intro fid title ty steps
    unfold addStep
    split
    · exact Or.inl rfl
    · exact Or.inr rfl
  · intro sid steps
    exact List.filter_sublist steps

/-- C10, witness: a concrete content edit keeps the id sequence and the
untargeted step; a concrete `addStep` appends at the end. -/
theorem C10_witness :
    ((updateSubStep "S1" "X" "hello" [stepOneSub, stepS2]).map Step.id =
        [stepOneSub, stepS2].map Step.id) ∧
    ([stepOneSub, stepS2][1]? = some stepS2 ∧ stepS2.id ≠ "S1" ∧
      (updateSubStep "S1" "X" "hello" [stepOneSub, stepS2])[1]? =
        some stepS2) ∧
    (addStep "N1" "T" StepType.normal [stepOneSub] = [stepOneSub] ∨
      addStep "N1" "T" StepType.normal [stepOneSub] =
        [stepOneSub] ++ [⟨"N1", "T", StepType.normal, [], true, none, none⟩]) :=
  ⟨(C10_edits_preserve_ids_order.2.1 "S1" "X" "hello" [stepOneSub, stepS2]).1,
   ⟨by decide, by decide,
    (C10_edits_preserve_ids_order.2.1 "S1" "X" "hello"
       [stepOneSub, stepS2]).2 1 stepS2 (by decide) (by decide)⟩,
   C10_edits_preserve_ids_order.2.2.2.2.2.2.2.1 "N1" "T" StepType.normal
     [stepOneSub]⟩

end FlowApp
